import Mathlib

/-!
Verification of the Weekly Data Processor pipeline (src/app.py).

The pipeline is embedded shallowly:
* a cell value is `Value` (a string, an integer, or the missing marker `nan`,
  mirroring pandas' NaN);
* a record (dataframe row) is an ordered association list `Row`;
* a dataframe is `Df`: a column list plus a row list;
* Python string operations (`replace`, `strip`, `rstrip`, `startswith`,
  `endswith`, `isdigit`, `int`, `str`, slicing, `upper`) are re-implemented
  over `List Char` with Python's semantics;
* a Python exception is modelled by `Option`/`none` at the point where the
  source can raise (`age_format` reading a possibly missing `ic` column,
  address cleaning over non-string cells, the postcode merge reading a
  possibly missing `postcode` column);
* the external Google-Maps geocoder is an injected function
  `geo : String → GeoReply`, and the pipeline also returns the list of
  addresses it sent to the geocoder, which makes the external calls of a run
  observable.
-/

namespace WeeklyDataProcessor

/-- A scalar cell value: a string, an integer, or the missing marker
(pandas NaN / absent value). -/
inductive Value where
  | str : String → Value
  | num : Int → Value
  | nan : Value
deriving DecidableEq

/-- Python `str(x)` on a cell value: strings unchanged, integers in decimal,
and `str(float('nan')) = "nan"`. -/
def Value.pyStr : Value → String
  | .str s => s
  | .num n => toString n
  | .nan => "nan"

/-- `True` exactly on string cells. -/
def Value.isStr : Value → Bool
  | .str _ => true
  | _ => false

/-- The string carried by a string cell (and `""` otherwise; only used under
an `isStr` guard). -/
def Value.getStr : Value → String
  | .str s => s
  | _ => ""

/-- A record: an ordered association list from field name to value, the
shallow embedding of one dataframe row. -/
abbrev Row := List (String × Value)

/-- First-match lookup of a field in a record (embeds reading a row's cell). -/
def rowGet : Row → String → Option Value
  | [], _ => none
  | kv :: rest, k => if kv.1 = k then some kv.2 else rowGet rest k

/-- Whether a record carries the field `k`. -/
def rowHas (row : Row) (k : String) : Bool :=
  row.any (fun kv => decide (kv.1 = k))

/-- Set field `k` of a record to `v`: replace every entry keyed `k` in place,
or append a new entry at the end when absent (pandas column-assignment
semantics at row level). -/
def rowSet (row : Row) (k : String) (v : Value) : Row :=
  if rowHas row k then row.map (fun kv => if kv.1 = k then (k, v) else kv)
  else row ++ [(k, v)]

/-- A dataframe: an ordered list of column names and a list of rows. -/
structure Df where
  cols : List String
  rows : List Row
deriving DecidableEq

/-- `pandas.DataFrame.empty`: true when either axis has length zero. -/
def Df.isEmpty (df : Df) : Bool :=
  df.rows.isEmpty || df.cols.isEmpty

/-- Column assignment `df[c] = series` where the series value for each row is
computed from that row: replaces the column in place, or appends it as the
last column when absent. -/
def Df.setColBy (df : Df) (c : String) (f : Row → Value) : Df :=
  ⟨if c ∈ df.cols then df.cols else df.cols ++ [c],
   df.rows.map (fun row => rowSet row c (f row))⟩

/-! ### Python string primitives over `List Char` -/

/-- Python `s.replace(pat, rep)` (all non-overlapping occurrences, scanned
left to right), with explicit fuel so that the kernel can evaluate it; the
fuel is instantiated with the string length, which always suffices because
each step consumes at least one character. -/
def pyReplaceFuel (pat rep : List Char) : Nat → List Char → List Char
  | _, [] => []
  | 0, s => s
  | Nat.succ n, c :: rest =>
    if pat ≠ [] ∧ pat.isPrefixOf (c :: rest) then
      rep ++ pyReplaceFuel pat rep n (List.drop (pat.length - 1) rest)
    else
      c :: pyReplaceFuel pat rep n rest

/-- Python `s.replace(pat, rep)` on character lists. -/
def pyReplace (pat rep s : List Char) : List Char :=
  pyReplaceFuel pat rep s.length s

/-- Python whitespace test used by `str.strip()`. -/
def pyIsSpace (c : Char) : Bool := c.isWhitespace

/-- Python `s.strip()`: drop leading and trailing whitespace. -/
def pyStripWs (s : List Char) : List Char :=
  ((s.dropWhile pyIsSpace).reverse.dropWhile pyIsSpace).reverse

/-- Python `s.rstrip(chars)`: drop trailing characters belonging to `chars`. -/
def pyRstrip (chars s : List Char) : List Char :=
  (s.reverse.dropWhile (fun c => chars.contains c)).reverse

/-- String-level Python `strip()`. -/
def pyStripWsS (s : String) : String := ⟨pyStripWs s.data⟩

/-- Python `s.startswith(p)`. -/
def pyStartsWith (s p : String) : Bool := p.data.isPrefixOf s.data

/-- Python `s.endswith(p)`. -/
def pyEndsWith (s p : String) : Bool := p.data.isSuffixOf s.data

/-- Python `s.isdigit()`: nonempty and all characters decimal digits. -/
def pyIsdigit (s : String) : Bool := !s.data.isEmpty && s.data.all Char.isDigit

/-- Python `int(s)` on a digit string, as a natural number. -/
def pyIntNat (l : List Char) : Nat :=
  l.foldl (fun a c => 10 * a + (c.toNat - 48)) 0

/-- Python `s.upper()` (ASCII case mapping, which covers the data in scope). -/
def pyUpper (s : String) : String := ⟨s.data.map Char.toUpper⟩

/-! ### AddressEnricher: `clean_address` (src/app.py lines 136-143) -/

/-- The inner `process_address` of `clean_address`:
`address.replace('\n', ' ').replace(', ,', ',').rstrip(',').strip()`, then
append `", MALAYSIA"` unless the result already ends with it. -/
def process_address (address : String) : String :=
  let a1 : String := ⟨pyReplace ['\n'] [' '] address.data⟩
  let a2 : String := ⟨pyReplace [',', ' ', ','] [','] a1.data⟩
  let a3 : String := ⟨pyRstrip [','] a2.data⟩
  let a4 : String := ⟨pyStripWs a3.data⟩
  if pyEndsWith a4 ", MALAYSIA" then a4 else a4 ++ ", MALAYSIA"

/-- `clean_address`: `process_address` mapped over the list of addresses. -/
def clean_address (address_list : List String) : List String :=
  address_list.map process_address

/-! ### SchemaNormalizer (src/app.py lines 36-78) -/

/-- `drop_columns(dataframe, columns_to_drop)` with `errors='ignore'`:
remove the listed columns when present, silently skip the absent ones. -/
def drop_columns (df : Df) (columns_to_drop : List String) : Df :=
  ⟨df.cols.filter (fun c => decide (c ∉ columns_to_drop)),
   df.rows.map (fun row => row.filter (fun kv => decide (kv.1 ∉ columns_to_drop)))⟩

/-- The `unwanted_columns` deny list of `clean_and_process_dataframe`. -/
def unwanted_columns : List String :=
  ["form_id", "user_id", "proof_of_income", "proof_of_income_type",
   "ic_image", "status", "is_b40", "race_other"]

/-- First-match lookup in a string-keyed association list. -/
def assocGet {β : Type} : List (String × β) → String → Option β
  | [], _ => none
  | kv :: rest, k => if kv.1 = k then some kv.2 else assocGet rest k

/-- The `column_mapping` of `rename_columns`. -/
def column_mapping : List (String × String) :=
  [("form_category", "program"), ("createdAt", "date"), ("ic_number", "ic"),
   ("name", "name"), ("race", "ethnicity"), ("gender", "sex"),
   ("state", "state"), ("postcode", "postcode"), ("address", "address"),
   ("mobile_number", "phone"), ("email", "email"),
   ("monthly_income", "salary_monthly")]

/-- Apply a rename mapping to one column name; unmapped names pass through. -/
def renameKey (m : List (String × String)) (k : String) : String :=
  (assocGet m k).getD k

/-- `rename_columns`: rename columns per `column_mapping`. -/
def rename_columns (df : Df) : Df :=
  ⟨df.cols.map (renameKey column_mapping),
   df.rows.map (fun row => row.map (fun kv => (renameKey column_mapping kv.1, kv.2)))⟩

/-- The `program_mapping` passed to `rename_program_values` by the pipeline. -/
def program_mapping : List (String × String) :=
  [("food", "INSAN"), ("agriculture", "INTAN"), ("maintenance", "IKHSAN")]

/-- `rename_program_values`: when a `program` column exists, remap its values
through the mapping, keeping unmapped values as-is
(`.map(value_mapping).fillna(original)`). -/
def rename_program_values (df : Df) (value_mapping : List (String × String)) : Df :=
  if "program" ∈ df.cols then
    df.setColBy "program" (fun row =>
      match (rowGet row "program").getD Value.nan with
      | Value.str s => Value.str ((assocGet value_mapping s).getD s)
      | v => v)
  else df

/-- The `original_order` column list of `reorder_columns`. -/
def original_order : List String :=
  ["program", "date", "ic", "name", "age", "ethnicity", "sex",
   "state", "district", "postcode", "lat", "lon", "address", "phone",
   "email", "salary_monthly", "miskin", "miskin_tegar", "str_mof", "belum_disemak"]

/-- The `new_order` computed by `reorder_columns`: members of
`original_order` that are present, in that order (`existing_columns`),
followed by all remaining columns in their original relative order
(`additional_columns`). -/
def reorderedCols (cols : List String) : List String :=
  original_order.filter (fun c => decide (c ∈ cols)) ++
    cols.filter (fun c => decide (c ∉ original_order))

/-- `reorder_columns`: select the columns in the `new_order`
(`dataframe[new_order]`). -/
def reorder_columns (df : Df) : Df :=
  ⟨reorderedCols df.cols,
   df.rows.map (fun row =>
     (reorderedCols df.cols).map (fun c => (c, (rowGet row c).getD Value.nan)))⟩

/-! ### FieldFormatter (src/app.py lines 81-133) -/

/-- `reformat_dates`: when a `date` column exists,
`astype(str).str[:10]` on each cell. -/
def reformat_dates (df : Df) : Df :=
  if "date" ∈ df.cols then
    df.setColBy "date" (fun row =>
      Value.str ⟨(((rowGet row "date").getD Value.nan).pyStr.data.take 10)⟩)
  else df

/-- pandas `.str.upper()` on one cell: uppercases string cells and turns
non-string cells into NaN (the `.str` accessor yields NaN on non-strings). -/
def upperCell (v : Value) : Value :=
  match v with
  | Value.str s => Value.str (pyUpper s)
  | _ => Value.nan

/-- `format_uppercase`: uppercase `name` and `address` columns when present. -/
def format_uppercase (df : Df) : Df :=
  let df1 := if "name" ∈ df.cols then
      df.setColBy "name" (fun row => upperCell ((rowGet row "name").getD Value.nan))
    else df
  if "address" ∈ df1.cols then
    df1.setColBy "address" (fun row => upperCell ((rowGet row "address").getD Value.nan))
  else df1

/-- The inner `format_number` of `format_phone_numbers`:
`str(number).strip()`, then `'+60' + number` when the trimmed value starts
with `'1'`, else `'+601' + number`. -/
def format_number (number : Value) : Value :=
  let n := pyStripWsS number.pyStr
  if pyStartsWith n "1" then Value.str ("+60" ++ n) else Value.str ("+601" ++ n)

/-- `format_phone_numbers`: apply `format_number` to every cell of the
`phone` column when present. -/
def format_phone_numbers (df : Df) : Df :=
  if "phone" ∈ df.cols then
    df.setColBy "phone" (fun row => format_number ((rowGet row "phone").getD Value.nan))
  else df

/-- Python `str(x).replace('.', '', 1)`: remove the first dot only. -/
def removeFirstDot : List Char → List Char
  | [] => []
  | c :: rest => if c = '.' then rest else c :: removeFirstDot rest

/-- Render a number of cents as a decimal string with exactly two fraction
digits (the shape `f"{v:.2f}"` produces for the non-negative inputs that
pass the digit guard). -/
def centsToString (cents : Nat) : String :=
  let f := cents % 100
  toString (cents / 100) ++ "." ++ (if f < 10 then "0" else "") ++ toString f

/-- `f"{float(s):.2f}"` for a string of digits with at most one dot: read it
as a decimal number and round to two fraction digits, ties to even (the
binary-float double rounding of CPython agrees with this on the short
decimal inputs in scope). -/
def pyFormat2f (s : String) : String :=
  let intPart := s.data.takeWhile (fun c => c ≠ '.')
  let fracPart := (s.data.dropWhile (fun c => c ≠ '.')).drop 1
  let numer := pyIntNat (intPart ++ fracPart)
  let d := 10 ^ fracPart.length
  let q := numer * 100 / d
  let r := numer * 100 % d
  let cents := if 2 * r > d ∨ (2 * r = d ∧ q % 2 = 1) then q + 1 else q
  centsToString cents

/-- The salary cell rule: reformat to two decimals when the value is non-null
and its string form is digits with at most one dot, else leave it unchanged. -/
def formatSalaryCell (v : Value) : Value :=
  if v ≠ Value.nan ∧ pyIsdigit ⟨removeFirstDot v.pyStr.data⟩ then
    Value.str (pyFormat2f v.pyStr)
  else v

/-- `format_salary`: apply the salary cell rule to `salary_monthly` when the
column is present. -/
def format_salary (df : Df) : Df :=
  if "salary_monthly" ∈ df.cols then
    df.setColBy "salary_monthly"
      (fun row => formatSalaryCell ((rowGet row "salary_monthly").getD Value.nan))
  else df

/-- The inner `calculate_age_from_ic` of `age_format`: the sentinel
`"IC ERROR"` unless the IC is exactly 12 digit characters, else
`2024 - birth_year` with `birth_year = 2000 + Y` for `Y ≤ 20`,
`1900 + Y` otherwise (`current_year = 2024` is hardcoded in the source). -/
def calculate_age_from_ic (ic_number : String) : Value :=
  if ic_number.length ≠ 12 ∨ pyIsdigit ic_number = false then
    Value.str "IC ERROR"
  else
    let year_int : Int := pyIntNat (ic_number.data.take 2)
    let birth_year : Int := if year_int ≤ 20 then 2000 + year_int else 1900 + year_int
    Value.num (2024 - birth_year)

/-- `age_format`: `dataframe['age'] = dataframe['ic'].apply(calculate_age_from_ic)`.
The source reads `dataframe['ic']` with no presence guard, so a missing `ic`
column raises `KeyError`; and `len()`/`isdigit()` raise `TypeError` on
non-string cells. Both raises are modelled by `none`. -/
def age_format (df : Df) : Option Df :=
  if "ic" ∈ df.cols then
    if df.rows.all (fun row => ((rowGet row "ic").getD Value.nan).isStr) then
      some (df.setColBy "age"
        (fun row => calculate_age_from_ic ((rowGet row "ic").getD Value.nan).getStr))
    else none
  else none

/-! ### GeocodeClient and AddressEnricher (src/app.py lines 146-157, 201-207) -/

/-- One reply of the external `gmaps.geocode` call: a candidate list (each
candidate carrying the `location` lat/lng pair), an
`googlemaps.exceptions.ApiError`, or any other exception. -/
inductive GeoReply where
  | ok : List (Int × Int) → GeoReply
  | apiError : GeoReply
  | exn : GeoReply

/-- `geocode_address`: status plus lat/lon. `success` takes the first
candidate's coordinates; `no_result` for an empty candidate list;
`api_error` for a service error; `error` for any other exception. -/
def geocode_address (geo : String → GeoReply) (address : String) :
    String × Value × Value :=
  match geo address with
  | GeoReply.ok [] => ("no_result", Value.nan, Value.nan)
  | GeoReply.ok (loc :: _) => ("success", Value.num loc.1, Value.num loc.2)
  | GeoReply.apiError => ("api_error", Value.nan, Value.nan)
  | GeoReply.exn => ("error", Value.nan, Value.nan)

/-- Extend a column list with one more column name at the end when absent. -/
def addColName (cols : List String) (c : String) : List String :=
  if c ∈ cols then cols else cols ++ [c]

/-- The per-row effect of lines 201-207: clean the address in place, geocode
the cleaned address, and store status, lat and lon. -/
def enrichRow (geo : String → GeoReply) (row : Row) : Row :=
  let cleaned := process_address ((rowGet row "address").getD Value.nan).getStr
  let res := geocode_address geo cleaned
  rowSet (rowSet (rowSet (rowSet row "address" (Value.str cleaned))
    "geocode_status" (Value.str res.1)) "lat" res.2.1) "lon" res.2.2

/-- The clean-address + geocode stage (lines 201-207): a no-op without an
`address` column; with one, every address cell must be a string (the list
comprehension in `clean_address` raises `AttributeError` otherwise,
modelled by `none`); the result also reports the list of addresses sent to
the external geocoder. -/
def enrich (geo : String → GeoReply) (df : Df) : Option (Df × List String) :=
  if "address" ∈ df.cols then
    if df.rows.all (fun row => ((rowGet row "address").getD Value.nan).isStr) then
      some (⟨addColName (addColName (addColName df.cols "geocode_status") "lat") "lon",
             df.rows.map (enrichRow geo)⟩,
            df.rows.map (fun row =>
              process_address ((rowGet row "address").getD Value.nan).getStr))
    else none
  else some (df, [])

/-! ### ReferenceJoiner (src/app.py lines 217-227) -/

/-- A record's postcode as normalized by lines 217-218:
`astype(str).str.strip()`. -/
def postKey (row : Row) : String :=
  pyStripWsS ((rowGet row "postcode").getD Value.nan).pyStr

/-- The normalized postcode as a cell value. -/
def trimVal (row : Row) : Value := Value.str (postKey row)

/-- One record with its postcode normalized in place. -/
def trimRow (row : Row) : Row := rowSet row "postcode" (trimVal row)

/-- The postcode normalization of lines 217-218:
`df['postcode'] = df['postcode'].astype(str).str.strip()`. -/
def trimPostcodeCol (df : Df) : Df :=
  df.setColBy "postcode" trimVal

/-- pandas suffixing of an overlapping non-key column on the left side. -/
def suffixLeft (left right : Df) (c : String) : String :=
  if c ≠ "postcode" ∧ c ∈ left.cols ∧ c ∈ right.cols then c ++ "_x" else c

/-- pandas suffixing of an overlapping non-key column on the right side. -/
def suffixRight (left right : Df) (c : String) : String :=
  if c ≠ "postcode" ∧ c ∈ left.cols ∧ c ∈ right.cols then c ++ "_y" else c

/-- `pd.merge(left, right, on='postcode', how='left')`: every left row
produces one output row per matching right row, or a single row padded with
NaN when nothing matches; overlapping non-key column names get `_x`/`_y`
suffixes. -/
def mergeLeft (left right : Df) : Df :=
  let rcols := right.cols.filter (fun c => decide (c ≠ "postcode"))
  ⟨left.cols.map (suffixLeft left right) ++ rcols.map (suffixRight left right),
   left.rows.flatMap (fun l =>
     let ms := right.rows.filter (fun r =>
       decide (rowGet r "postcode" = rowGet l "postcode"))
     let lrow := l.map (fun kv => (suffixLeft left right kv.1, kv.2))
     if ms.isEmpty then
       [lrow ++ rcols.map (fun c => (suffixRight left right c, Value.nan))]
     else
       ms.map (fun r =>
         lrow ++ rcols.map (fun c => (suffixRight left right c, (rowGet r c).getD Value.nan))))⟩

/-- `dataframe.rename(columns={a: b})` for a single column. -/
def renameCol (df : Df) (a b : String) : Df :=
  ⟨df.cols.map (fun c => if c = a then b else c),
   df.rows.map (fun row => row.map (fun kv => if kv.1 = a then (b, kv.2) else kv))⟩

/-- Lines 217-227: trim both postcode columns, left-merge, then rename
`city` to `district`, `state_x` back to `state`, and drop `state_y`.
Reading a missing `postcode` column raises `KeyError`, modelled by `none`. -/
def mergeStep (df postcode_df : Df) : Option Df :=
  if "postcode" ∈ df.cols ∧ "postcode" ∈ postcode_df.cols then
    let l := trimPostcodeCol df
    let r := trimPostcodeCol postcode_df
    let m1 := mergeLeft l r
    let m2 := if "city" ∈ m1.cols then renameCol m1 "city" "district" else m1
    let m3 := if "state_x" ∈ m2.cols then renameCol m2 "state_x" "state" else m2
    some (if "state_y" ∈ m3.cols then drop_columns m3 ["state_y"] else m3)
  else none

/-! ### Flag columns and the orchestrator
    (src/app.py lines 174-253) -/

/-- Lines 229-237: `combined_df[col] = ''` for the four flag columns, in
dictionary order. The assignment is unconditional: it overwrites the whole
column with the empty string. -/
def addFlagColumns (df : Df) : Df :=
  let d1 := df.setColBy "miskin" (fun _ => Value.str "")
  let d2 := d1.setColBy "miskin_tegar" (fun _ => Value.str "")
  let d3 := d2.setColBy "str_mof" (fun _ => Value.str "")
  d3.setColBy "belum_disemak" (fun _ => Value.str "")

/-- Lines 180-198: the drop, rename, remap, date, uppercase, phone and
salary stages, in source order. -/
def transformPhase (df0 : Df) : Df :=
  format_salary (format_phone_numbers (format_uppercase (reformat_dates
    (rename_program_values (rename_columns (drop_columns df0 unwanted_columns))
      program_mapping))))

/-- Lines 199-253 for a non-empty parsed input: age derivation, address
cleaning and geocoding, reorder, the reference-table availability check,
the merge and the flag columns, returning the external geocoder calls made
and the materialized output (if any). -/
def pipelineRest (geo : String → GeoReply) (df0 : Df) (postcode_df : Df) :
    List String × Option Df :=
  match age_format (transformPhase df0) with
  | none => ([], none)
  | some df8 =>
    match enrich geo df8 with
    | none => ([], none)
    | some (df9, calls) =>
      if postcode_df.isEmpty then (calls, none)
      else
        match mergeStep (reorder_columns df9) postcode_df with
        | none => (calls, none)
        | some dfm => (calls, some (addFlagColumns dfm))

/-- `clean_and_process_dataframe(df, postcode_df)`, with the process-wide
geocoding client made an explicit argument `geo`. The result is the list of
addresses sent to the external geocoder during the run, paired with the
materialized output table (`none` when the run returns early or raises, in
which case no output is produced). `odf = none` models a `df` that failed to
parse upstream (`json_to_dataframe` returned `None`). -/
def clean_and_process_dataframe (geo : String → GeoReply) (odf : Option Df)
    (postcode_df : Df) : List String × Option Df :=
  match odf with
  | none => ([], none)
  | some df0 =>
    if df0.isEmpty then ([], none)
    else pipelineRest geo df0 postcode_df

/-! ### Definitions written from the spec's words, for refinement claims -/

/-- Modelled from the spec: `deriveAge(record, referenceYear)` with the
reference year as an explicit caller-supplied parameter — `"IC ERROR"`
when the IC is not exactly 12 characters or contains a non-digit
character, else `referenceYear - birthYear` with `birthYear = 2000 + Y`
for `Y ≤ 20` and `1900 + Y` otherwise, `Y` the two-digit number formed by
the first two characters. -/
def deriveAgeSpec (referenceYear : Int) (ic : String) : Value :=
  if ic.length ≠ 12 ∨ ic.data.any (fun c => !c.isDigit) then
    Value.str "IC ERROR"
  else
    let y : Int := pyIntNat (ic.data.take 2)
    Value.num (referenceYear - (if y ≤ 20 then 2000 + y else 1900 + y))

/-- Modelled from the spec: `join(records, referenceTable)` — normalize both
sides' postcode by trimming whitespace and comparing as strings; a left
join in which every record survives; on match attach the reference `city`
under the name `district` and keep the original `state`; unmatched records
get a null `district` with all other fields unchanged. -/
def joinSpec (df pdf : Df) : Df :=
  ⟨df.cols ++ ["district"],
   df.rows.map (fun l =>
     trimRow l ++
       [("district",
         match pdf.rows.find? (fun r => decide (postKey r = postKey l)) with
         | some r => (rowGet r "city").getD Value.nan
         | none => Value.nan)])⟩

/-! ## Shared lemmas about the record model -/

theorem rowGet_map_replace (row : Row) (k : String) (v : Value)
    (h : rowHas row k = true) :
    rowGet (row.map (fun kv => if kv.1 = k then (k, v) else kv)) k = some v := by
  induction row with
  | nil => simp [rowHas] at h
  | cons kv rest ih =>
    by_cases hk : kv.1 = k
    · simp [rowGet, hk]
    · have h' : rowHas rest k = true := by
        simpa [rowHas, hk] using h
      simp [rowGet, hk, ih h']

theorem rowGet_append_single (row : Row) (k : String) (v : Value)
    (h : rowHas row k = false) :
    rowGet (row ++ [(k, v)]) k = some v := by
  induction row with
  | nil => simp [rowGet]
  | cons kv rest ih =>
    have hk : ¬ kv.1 = k := by
      intro hc
      simp [rowHas, hc] at h
    have h' : rowHas rest k = false := by
      simpa [rowHas, hk] using h
    simp [rowGet, hk, ih h']

/-- Setting a field makes it readable with the written value. -/
theorem rowGet_rowSet_self (row : Row) (k : String) (v : Value) :
    rowGet (rowSet row k v) k = some v := by
  by_cases h : rowHas row k = true
  · simp [rowSet, h, rowGet_map_replace row k v h]
  · simp at h
    simp [rowSet, h, rowGet_append_single row k v h]

theorem rowGet_map_replace_ne (row : Row) (k q : String) (v : Value) (h : q ≠ k) :
    rowGet (row.map (fun kv => if kv.1 = k then (k, v) else kv)) q = rowGet row q := by
  induction row with
  | nil => simp
  | cons kv rest ih =>
    by_cases hk : kv.1 = k
    · have hkq : ¬ k = q := fun hc => h hc.symm
      have hq : ¬ kv.1 = q := by rw [hk]; exact hkq
      simp [rowGet, hk, hkq, hq, ih]
    · by_cases hq : kv.1 = q
      · simp [rowGet, hk, hq, h, Ne.symm h]
      · simp [rowGet, hk, hq, ih]

theorem rowGet_append_single_ne (row : Row) (k q : String) (v : Value) (h : q ≠ k) :
    rowGet (row ++ [(k, v)]) q = rowGet row q := by
  induction row with
  | nil => simp [rowGet, Ne.symm h]
  | cons kv rest ih =>
    by_cases hq : kv.1 = q
    · simp [rowGet, hq]
    · simp [rowGet, hq, ih]

/-- Setting a field leaves every other field unchanged. -/
theorem rowGet_rowSet_ne (row : Row) (k q : String) (v : Value) (h : q ≠ k) :
    rowGet (rowSet row k v) q = rowGet row q := by
  by_cases hh : rowHas row k = true
  · simp only [rowSet, hh, if_true]
    exact rowGet_map_replace_ne row k q v h
  · simp only [rowSet, hh, Bool.false_eq_true, if_false]
    exact rowGet_append_single_ne row k q v h

/-- Reading a tabulated record at a listed field. -/
theorem rowGet_tabulate (g : String → Value) (l : List String) (c : String)
    (h : c ∈ l) :
    rowGet (l.map (fun k => (k, g k))) c = some (g c) := by
  induction l with
  | nil => simp at h
  | cons a rest ih =>
    by_cases ha : a = c
    · simp [rowGet, ha]
    · have : c ∈ rest := by
        rcases List.mem_cons.mp h with h1 | h1
        · exact absurd h1.symm ha
        · exact h1
      simp [rowGet, ha, ih this]

/-! ## C1 — `cleanAddress` -/

theorem pyEndsWith_append (a b : String) : pyEndsWith (a ++ b) b = true := by
  simp [pyEndsWith, String.data_append]

/-- Every output of `process_address` ends with `", MALAYSIA"`. -/
theorem process_address_endsWith (s : String) :
    pyEndsWith (process_address s) ", MALAYSIA" = true := by
  simp only [process_address]
  split
  · assumption
  · exact pyEndsWith_append _ _

/-- C1, counterexample: the claim's own example fails on the code. The source
collapses `", ,"` (comma, space, comma), not a comma immediately followed by
another comma, so the `",,"` in the input survives and the claimed output
`"Jalan X, Taman Y, MALAYSIA"` is not produced. -/
theorem c1_counterexample :
    clean_address ["Jalan X,, \nTaman Y,"] ≠ ["Jalan X, Taman Y, MALAYSIA"] := by
  decide

/-- C1, amended: `process_address` replaces each newline with a single space,
collapses each occurrence of comma-space-comma into one comma, strips
trailing commas and surrounding whitespace, and appends `", MALAYSIA"`
when the result does not already end with it; in particular the input
`"Jalan X,, \nTaman Y,"` maps to `"Jalan X,,  Taman Y, MALAYSIA"`. -/
theorem c1_clean_address :
    (∀ s : String, pyEndsWith (process_address s) ", MALAYSIA" = true) ∧
    clean_address ["Jalan X,, \nTaman Y,"] = ["Jalan X,,  Taman Y, MALAYSIA"] ∧
    process_address "A\nB" = "A B, MALAYSIA" ∧
    process_address "A, ,B," = "A,B, MALAYSIA" ∧
    process_address "JALAN KLANG, MALAYSIA" = "JALAN KLANG, MALAYSIA" := by
  exact ⟨process_address_endsWith, by decide, by decide, by decide, by decide⟩

/-! ## C2 — totality of the per-record stages -/

/-- C2, code-bug evidence: on a record set without an `ic` field, every
guarded stage is a no-op as the spec demands, but `age_format` reads
`dataframe['ic']` without a presence guard and raises `KeyError`
(modelled by `none`), so the derive-age stage is not total. -/
theorem c2_age_format_missing_ic :
    age_format ⟨["name"], [[("name", Value.str "A")]]⟩ = none ∧
    rename_program_values ⟨["name"], [[("name", Value.str "A")]]⟩ program_mapping
      = ⟨["name"], [[("name", Value.str "A")]]⟩ ∧
    reformat_dates ⟨["name"], [[("name", Value.str "A")]]⟩
      = ⟨["name"], [[("name", Value.str "A")]]⟩ ∧
    format_phone_numbers ⟨["name"], [[("name", Value.str "A")]]⟩
      = ⟨["name"], [[("name", Value.str "A")]]⟩ ∧
    format_salary ⟨["name"], [[("name", Value.str "A")]]⟩
      = ⟨["name"], [[("name", Value.str "A")]]⟩ ∧
    enrich (fun _ => GeoReply.exn) ⟨["name"], [[("name", Value.str "A")]]⟩
      = some (⟨["name"], [[("name", Value.str "A")]]⟩, []) := by
  decide

/-! ## C8 — `formatPhone` -/

/-- C8: the phone formatter trims surrounding whitespace, prefixes `+60`
when the trimmed value starts with `1` and `+601` otherwise, the spec's
two examples hold, and an absent `phone` column is a no-op. -/
theorem c8_format_phone (s : String) (df : Df) :
    (pyStartsWith (pyStripWsS s) "1" = true →
      format_number (Value.str s) = Value.str ("+60" ++ pyStripWsS s)) ∧
    (pyStartsWith (pyStripWsS s) "1" = false →
      format_number (Value.str s) = Value.str ("+601" ++ pyStripWsS s)) ∧
    format_number (Value.str "112345") = Value.str "+60112345" ∧
    format_number (Value.str "812345") = Value.str "+601812345" ∧
    ("phone" ∉ df.cols → format_phone_numbers df = df) := by
  refine ⟨fun h => ?_, fun h => ?_, by decide, by decide, fun h => ?_⟩
  · simp [format_number, Value.pyStr, h]
  · simp [format_number, Value.pyStr, h]
  · simp [format_phone_numbers, h]

/-- C8, witness at concrete inputs. -/
theorem c8_format_phone_witness :
    format_number (Value.str " 112345 ") = Value.str ("+60" ++ pyStripWsS " 112345 ") ∧
    format_phone_numbers ⟨["name"], [[("name", Value.str "A")]]⟩
      = ⟨["name"], [[("name", Value.str "A")]]⟩ :=
  ⟨(c8_format_phone " 112345 " ⟨["name"], [[("name", Value.str "A")]]⟩).1 (by decide),
   (c8_format_phone " 112345 " ⟨["name"], [[("name", Value.str "A")]]⟩).2.2.2.2 (by decide)⟩

/-! ## C10 — missing phone values become `"+601nan"` -/

/-- C10: when the `phone` column is present but a record's phone value is the
missing marker, the formatter stringifies it (`str(nan) = "nan"`) and
produces the literal `"+601nan"` for that record. -/
theorem c10_phone_nan (df : Df) (i : Nat)
    (h1 : "phone" ∈ df.cols)
    (h2 : (df.rows[i]?).map (fun row => rowGet row "phone") = some (some Value.nan)) :
    ((format_phone_numbers df).rows[i]?).map (fun row => rowGet row "phone")
      = some (some (Value.str "+601nan")) := by
  simp only [format_phone_numbers, h1, if_true, Df.setColBy]
  match hr : df.rows[i]? with
  | none => simp [hr] at h2
  | some row =>
    have hval : rowGet row "phone" = some Value.nan := by
      simpa [hr] using h2
    simp only [List.getElem?_map, hr, Option.map_some]
    have : format_number ((rowGet row "phone").getD Value.nan) = Value.str "+601nan" := by
      rw [hval]
      decide
    simp [rowGet_rowSet_self, this]

/-- C10, witness at a concrete one-record table. -/
theorem c10_phone_nan_witness :
    ((format_phone_numbers ⟨["phone"], [[("phone", Value.nan)]]⟩).rows[0]?).map
        (fun row => rowGet row "phone") = some (some (Value.str "+601nan")) :=
  c10_phone_nan ⟨["phone"], [[("phone", Value.nan)]]⟩ 0 (by decide) (by decide)

/-! ## C4 — `deriveAge` -/

/-- C4, counterexample: the derived age is computed from the hardcoded
constant year 2024, not from a caller-supplied `referenceYear`: for the IC
`"990101010101"` (birth year 1999) the code stores 25 = 2024 − 1999, while
the claim's parameterized derivation at `referenceYear = 2025` gives 26. -/
theorem c4_counterexample :
    calculate_age_from_ic "990101010101" = Value.num 25 ∧
    deriveAgeSpec 2025 "990101010101" = Value.num 26 := by
  decide

/-- C4, amended: the stored age is the sentinel `"IC ERROR"` when `ic` is not
exactly 12 digit characters, and otherwise `2024 − birthYear` with the
claimed birth-year rule — i.e. the claimed derivation with the reference
year fixed to the hardcoded constant 2024 — and `age_format` never alters
the `ic` column. -/
theorem c4_age_derivation (ic : String) (df df' : Df)
    (h : age_format df = some df') :
    calculate_age_from_ic ic = deriveAgeSpec 2024 ic ∧
    df'.rows.length = df.rows.length ∧
    ∀ i : Nat, (df'.rows[i]?).map (fun row => rowGet row "ic")
      = (df.rows[i]?).map (fun row => rowGet row "ic") := by
  refine ⟨?_, ?_, ?_⟩
  · by_cases hlen : ic.length = 12
    · have hne : ic.data ≠ [] := by
        intro hc
        rw [String.length, hc] at hlen
        simp at hlen
      by_cases hdig : ic.data.all Char.isDigit
      · have h1 : pyIsdigit ic = true := by
          simp [pyIsdigit, hdig, hne]
        have h2 : ic.data.any (fun c => !c.isDigit) = false := by
          simpa [List.all_eq_not_any_not] using hdig
        simp [calculate_age_from_ic, deriveAgeSpec, hlen, h1, h2]
      · have h1 : pyIsdigit ic = false := by
          simp [pyIsdigit, hne]
          simpa using hdig
        have h2 : ic.data.any (fun c => !c.isDigit) = true := by
          simpa [List.all_eq_not_any_not] using hdig
        simp [calculate_age_from_ic, deriveAgeSpec, hlen, h1, h2]
    · simp [calculate_age_from_ic, deriveAgeSpec, hlen]
  · have hdf : df' = df.setColBy "age"
        (fun row => calculate_age_from_ic ((rowGet row "ic").getD Value.nan).getStr) := by
      simp only [age_format] at h
      split at h
      · split at h
        · exact (Option.some_inj.mp h).symm
        · exact absurd h (by simp)
      · exact absurd h (by simp)
    subst hdf
    simp [Df.setColBy]
  · intro i
    have hdf : df' = df.setColBy "age"
        (fun row => calculate_age_from_ic ((rowGet row "ic").getD Value.nan).getStr) := by
      simp only [age_format] at h
      split at h
      · split at h
        · exact (Option.some_inj.mp h).symm
        · exact absurd h (by simp)
      · exact absurd h (by simp)
    subst hdf
    simp only [Df.setColBy, List.getElem?_map]
    match hr : df.rows[i]? with
    | none => simp
    | some row =>
      simp [rowGet_rowSet_ne row "age" "ic" _ (by decide)]

/-- C4, witness at concrete inputs: a valid IC and a one-record table. -/
theorem c4_age_derivation_witness :
    calculate_age_from_ic "050101010101" = deriveAgeSpec 2024 "050101010101" ∧
    ((age_format ⟨["ic"], [[("ic", Value.str "990101010101")]]⟩).getD ⟨[], []⟩).rows.length
      = (Df.mk ["ic"] [[("ic", Value.str "990101010101")]]).rows.length :=
  ⟨(c4_age_derivation "050101010101" ⟨["ic"], [[("ic", Value.str "990101010101")]]⟩
      ((age_format ⟨["ic"], [[("ic", Value.str "990101010101")]]⟩).getD ⟨[], []⟩)
      (by decide)).1,
   (c4_age_derivation "050101010101" ⟨["ic"], [[("ic", Value.str "990101010101")]]⟩
      ((age_format ⟨["ic"], [[("ic", Value.str "990101010101")]]⟩).getD ⟨[], []⟩)
      (by decide)).2.1⟩

/-! ## C9 — `reorder` -/

/-- Reordering preserves the set of columns. -/
theorem reorderedCols_mem (cols : List String) (c : String) :
    c ∈ reorderedCols cols ↔ c ∈ cols := by
  simp only [reorderedCols, List.mem_append, List.mem_filter, decide_eq_true_eq]
  constructor
  · rintro (⟨_, hc⟩ | ⟨hc, _⟩) <;> exact hc
  · intro hc
    by_cases ho : c ∈ original_order
    · exact Or.inl ⟨ho, hc⟩
    · exact Or.inr ⟨hc, ho⟩

/-- The computed column order is a fixed point of the order computation. -/
theorem reorderedCols_idem (cols : List String) :
    reorderedCols (reorderedCols cols) = reorderedCols cols := by
  show original_order.filter _ ++ (reorderedCols cols).filter _ = _
  have hA : original_order.filter (fun c => decide (c ∈ reorderedCols cols)) =
      original_order.filter (fun c => decide (c ∈ cols)) :=
    List.filter_congr (fun c _ => decide_eq_decide.mpr (reorderedCols_mem cols c))
  have hB : (reorderedCols cols).filter (fun c => decide (c ∉ original_order)) =
      cols.filter (fun c => decide (c ∉ original_order)) := by
    show (original_order.filter _ ++ cols.filter _).filter _ = _
    rw [List.filter_append]
    have h1 : (original_order.filter (fun c => decide (c ∈ cols))).filter
        (fun c => decide (c ∉ original_order)) = [] := by
      rw [List.filter_eq_nil_iff]
      intro a ha
      simp only [decide_eq_true_eq, Decidable.not_not]
      exact (List.mem_filter.mp ha).1
    have h2 : (cols.filter (fun c => decide (c ∉ original_order))).filter
        (fun c => decide (c ∉ original_order)) =
        cols.filter (fun c => decide (c ∉ original_order)) := by
      rw [List.filter_eq_self]
      intro a ha
      exact (List.mem_filter.mp ha).2
    rw [h1, h2, List.nil_append]
  rw [hA, hB]
  rfl

/-- C9: `reorder_columns` outputs first the canonical-order columns that are
present, in canonical order, then the remaining columns in their original
relative order; it preserves the set of columns; and it is idempotent. -/
theorem c9_reorder (df : Df) :
    (reorder_columns df).cols =
      original_order.filter (fun c => decide (c ∈ df.cols)) ++
        df.cols.filter (fun c => decide (c ∉ original_order)) ∧
    (∀ c, c ∈ (reorder_columns df).cols ↔ c ∈ df.cols) ∧
    reorder_columns (reorder_columns df) = reorder_columns df := by
  refine ⟨rfl, fun c => reorderedCols_mem df.cols c, ?_⟩
  have hext : ∀ (a b : Df), a.cols = b.cols → a.rows = b.rows → a = b := by
    intro a b h1 h2
    cases a; cases b
    simp_all
  apply hext
  · show reorderedCols (reorderedCols df.cols) = reorderedCols df.cols
    exact reorderedCols_idem df.cols
  · show (df.rows.map _).map _ = df.rows.map _
    rw [List.map_map]
    apply List.map_congr_left
    intro row _
    show (reorderedCols (reorderedCols df.cols)).map _ =
      (reorderedCols df.cols).map (fun c => (c, (rowGet row c).getD Value.nan))
    rw [reorderedCols_idem]
    apply List.map_congr_left
    intro c hcmem
    have ht : rowGet ((reorderedCols df.cols).map
        (fun k => (k, (rowGet row k).getD Value.nan))) c =
        some ((rowGet row c).getD Value.nan) :=
      rowGet_tabulate (fun k => (rowGet row k).getD Value.nan) (reorderedCols df.cols) c hcmem
    simp [ht]

/-! ## C6 — geocode status invariants -/

/-- Number of records of a table whose `geocode_status` is the string `s`. -/
def countStatus (df : Df) (s : String) : Nat :=
  df.rows.countP (fun row => decide (rowGet row "geocode_status" = some (Value.str s)))

/-- A record's cell at `c` is present and not the missing marker. -/
def cellNonNull (row : Row) (c : String) : Bool :=
  match rowGet row c with
  | some Value.nan => false
  | some _ => true
  | none => false

/-- The three cells an enriched record carries for its geocoding outcome. -/
theorem enrichRow_cells (geo : String → GeoReply) (row : Row) :
    rowGet (enrichRow geo row) "geocode_status" =
      some (Value.str (geocode_address geo
        (process_address ((rowGet row "address").getD Value.nan).getStr)).1) ∧
    rowGet (enrichRow geo row) "lat" =
      some (geocode_address geo
        (process_address ((rowGet row "address").getD Value.nan).getStr)).2.1 ∧
    rowGet (enrichRow geo row) "lon" =
      some (geocode_address geo
        (process_address ((rowGet row "address").getD Value.nan).getStr)).2.2 := by
  refine ⟨?_, ?_, ?_⟩
  · simp only [enrichRow]
    rw [rowGet_rowSet_ne _ _ _ _ (by decide), rowGet_rowSet_ne _ _ _ _ (by decide),
      rowGet_rowSet_self]
  · simp only [enrichRow]
    rw [rowGet_rowSet_ne _ _ _ _ (by decide), rowGet_rowSet_self]
  · simp only [enrichRow]
    rw [rowGet_rowSet_self]

/-- Each enriched row has one of the four documented statuses, and carries
non-null coordinates exactly when that status is `success`. -/
theorem enrichRow_class (geo : String → GeoReply) (a : Row) :
    ∃ st : String,
      (st = "success" ∨ st = "no_result" ∨ st = "api_error" ∨ st = "error") ∧
      rowGet (enrichRow geo a) "geocode_status" = some (Value.str st) ∧
      (cellNonNull (enrichRow geo a) "lat" && cellNonNull (enrichRow geo a) "lon")
        = decide (st = "success") := by
  rcases enrichRow_cells geo a with ⟨hs, hlat, hlon⟩
  rcases hg : geo (process_address ((rowGet a "address").getD Value.nan).getStr) with
    cands | _ | _
  · rcases cands with _ | ⟨loc, rest⟩
    · have hval : (geocode_address geo
          (process_address ((rowGet a "address").getD Value.nan).getStr)) =
          ("no_result", Value.nan, Value.nan) := by simp [geocode_address, hg]
      rw [hval] at hs hlat hlon
      exact ⟨"no_result", by simp, hs, by simp [cellNonNull, hlat, hlon]⟩
    · have hval : (geocode_address geo
          (process_address ((rowGet a "address").getD Value.nan).getStr)) =
          ("success", Value.num loc.1, Value.num loc.2) := by simp [geocode_address, hg]
      rw [hval] at hs hlat hlon
      exact ⟨"success", by simp, hs, by simp [cellNonNull, hlat, hlon]⟩
  · have hval : (geocode_address geo
        (process_address ((rowGet a "address").getD Value.nan).getStr)) =
        ("api_error", Value.nan, Value.nan) := by simp [geocode_address, hg]
    rw [hval] at hs hlat hlon
    exact ⟨"api_error", by simp, hs, by simp [cellNonNull, hlat, hlon]⟩
  · have hval : (geocode_address geo
        (process_address ((rowGet a "address").getD Value.nan).getStr)) =
        ("error", Value.nan, Value.nan) := by simp [geocode_address, hg]
    rw [hval] at hs hlat hlon
    exact ⟨"error", by simp, hs, by simp [cellNonNull, hlat, hlon]⟩

/-- Status/coordinate bookkeeping of enriched rows, list level: the four
per-status counts partition the rows, and the `success` count coincides
with the rows carrying non-null `lat` and `lon`. -/
theorem enrich_counts (geo : String → GeoReply) (rows0 : List Row) :
    ((rows0.map (enrichRow geo)).countP
        (fun row => decide (rowGet row "geocode_status" = some (Value.str "success"))) +
      (rows0.map (enrichRow geo)).countP
        (fun row => decide (rowGet row "geocode_status" = some (Value.str "no_result"))) +
      (rows0.map (enrichRow geo)).countP
        (fun row => decide (rowGet row "geocode_status" = some (Value.str "api_error"))) +
      (rows0.map (enrichRow geo)).countP
        (fun row => decide (rowGet row "geocode_status" = some (Value.str "error")))
      = (rows0.map (enrichRow geo)).length) ∧
    (rows0.map (enrichRow geo)).countP
        (fun row => decide (rowGet row "geocode_status" = some (Value.str "success"))) =
      (rows0.map (enrichRow geo)).countP
        (fun row => cellNonNull row "lat" && cellNonNull row "lon") := by
  induction rows0 with
  | nil => simp
  | cons a t ih =>
    rcases ih with ⟨ih1, ih2⟩
    rcases enrichRow_class geo a with ⟨st, hst4, hs, hnn⟩
    simp only [List.map_cons, List.countP_cons, List.length_cons, hs, hnn]
    rcases hst4 with h | h | h | h <;> subst h <;>
      simp at ih1 ih2 ⊢ <;> omega

/-- C6: every geocode result has one of the four documented statuses, its
coordinates are non-null exactly when the status is `success`, and across
an enrichment run the per-status counts partition the records while the
`success` count equals the count of records with non-null `lat`/`lon`. -/
theorem c6_geocode_invariants (geo : String → GeoReply) (addr : String)
    (df df' : Df) (calls : List String)
    (h : enrich geo df = some (df', calls)) (ha : "address" ∈ df.cols) :
    ((geocode_address geo addr).1 = "success" ∨
     (geocode_address geo addr).1 = "no_result" ∨
     (geocode_address geo addr).1 = "api_error" ∨
     (geocode_address geo addr).1 = "error") ∧
    (((geocode_address geo addr).2.1 ≠ Value.nan ∧
      (geocode_address geo addr).2.2 ≠ Value.nan) ↔
      (geocode_address geo addr).1 = "success") ∧
    (countStatus df' "success" + countStatus df' "no_result" +
      countStatus df' "api_error" + countStatus df' "error" = df'.rows.length) ∧
    countStatus df' "success" =
      df'.rows.countP (fun row => cellNonNull row "lat" && cellNonNull row "lon") ∧
    df'.rows.length = df.rows.length := by
  have hrows : df'.rows = df.rows.map (enrichRow geo) := by
    simp only [enrich, ha, if_true] at h
    split at h
    · have heq := Option.some_inj.mp h
      exact (congrArg (fun p => p.1.rows) heq).symm
    · exact absurd h (by simp)
  refine ⟨?_, ?_, ?_, ?_, ?_⟩
  · rcases hg : geo addr with cands | _ | _
    · rcases cands with _ | ⟨loc, rest⟩
      · simp [geocode_address, hg]
      · simp [geocode_address, hg]
    · simp [geocode_address, hg]
    · simp [geocode_address, hg]
  · rcases hg : geo addr with cands | _ | _
    · rcases cands with _ | ⟨loc, rest⟩
      · simp [geocode_address, hg]
      · simp [geocode_address, hg]
    · simp [geocode_address, hg]
    · simp [geocode_address, hg]
  · rw [hrows]
    simpa [countStatus, hrows] using (enrich_counts geo df.rows).1
  · simpa [countStatus, hrows] using (enrich_counts geo df.rows).2
  · rw [hrows, List.length_map]

/-- A concrete geocoder stub used for witnesses: one candidate for every
address. -/
def c6wgeo : String → GeoReply := fun _ => GeoReply.ok [(3, 101)]

/-- A concrete one-record table with an address column. -/
def c6wdf : Df := ⟨["address"], [[("address", Value.str "Jalan X")]]⟩

/-- The enriched table of the witness run. -/
def c6wout : Df := ((enrich c6wgeo c6wdf).getD (⟨[], []⟩, [])).1

/-- The geocoder call list of the witness run. -/
def c6wcalls : List String := ((enrich c6wgeo c6wdf).getD (⟨[], []⟩, [])).2

/-- C6, witness: the invariants at a concrete enrichment run. -/
theorem c6_geocode_invariants_witness :
    ((geocode_address c6wgeo "KL").1 = "success" ∨
     (geocode_address c6wgeo "KL").1 = "no_result" ∨
     (geocode_address c6wgeo "KL").1 = "api_error" ∨
     (geocode_address c6wgeo "KL").1 = "error") ∧
    (((geocode_address c6wgeo "KL").2.1 ≠ Value.nan ∧
      (geocode_address c6wgeo "KL").2.2 ≠ Value.nan) ↔
      (geocode_address c6wgeo "KL").1 = "success") ∧
    (countStatus c6wout "success" + countStatus c6wout "no_result" +
      countStatus c6wout "api_error" + countStatus c6wout "error" = c6wout.rows.length) ∧
    countStatus c6wout "success" =
      c6wout.rows.countP (fun row => cellNonNull row "lat" && cellNonNull row "lon") ∧
    c6wout.rows.length = c6wdf.rows.length :=
  c6_geocode_invariants c6wgeo "KL" c6wdf c6wout c6wcalls (by decide) (by decide)

/-! ## C3 — fatal preconditions of the run -/

/-- C3, counterexample: with a non-empty, parseable input and an unavailable
(empty) reference postcode table, the run does produce no output, but it
does not abort before the transformation stages: the geocoding enrichment
has already executed, observable as a non-empty list of external geocoder
calls. -/
theorem c3_counterexample :
    (clean_and_process_dataframe (fun _ => GeoReply.ok [(3, 101)])
        (some ⟨["ic", "postcode", "address"],
          [[("ic", Value.str "990101010101"), ("postcode", Value.str "43000"),
            ("address", Value.str "Jalan X")]]⟩) ⟨[], []⟩).2 = none ∧
    (clean_and_process_dataframe (fun _ => GeoReply.ok [(3, 101)])
        (some ⟨["ic", "postcode", "address"],
          [[("ic", Value.str "990101010101"), ("postcode", Value.str "43000"),
            ("address", Value.str "Jalan X")]]⟩) ⟨[], []⟩).1 ≠ [] := by
  decide

/-- C3, amended: an empty or unparsed raw input aborts before any stage runs
(no output and no external geocoder call); an unavailable reference table
also yields no output table, but only aborts after the transformation and
enrichment stages have run. -/
theorem c3_fatal_preconditions (geo : String → GeoReply) (odf : Option Df) (pdf : Df) :
    ((odf = none ∨ ∃ df, odf = some df ∧ df.isEmpty = true) →
      clean_and_process_dataframe geo odf pdf = ([], none)) ∧
    (pdf.isEmpty = true → (clean_and_process_dataframe geo odf pdf).2 = none) := by
  constructor
  · rintro (h | ⟨df, hdf, hempty⟩)
    · subst h
      rfl
    · subst hdf
      simp only [clean_and_process_dataframe]
      rw [if_pos hempty]
  · intro h
    match odf with
    | none => rfl
    | some df0 =>
      simp only [clean_and_process_dataframe]
      split
      · rfl
      · simp only [pipelineRest]
        split
        · rfl
        · split
          · rfl
          · rw [if_pos h]

/-- C3, witness: an empty record set aborts with no calls and no output, and
an empty reference table yields no output. -/
theorem c3_fatal_preconditions_witness :
    clean_and_process_dataframe (fun _ => GeoReply.exn) (some ⟨["ic"], []⟩) ⟨[], []⟩
      = ([], none) ∧
    (clean_and_process_dataframe (fun _ => GeoReply.exn) (some ⟨["ic"], []⟩) ⟨[], []⟩).2
      = none :=
  ⟨(c3_fatal_preconditions (fun _ => GeoReply.exn) (some ⟨["ic"], []⟩) ⟨[], []⟩).1
      (Or.inr ⟨⟨["ic"], []⟩, rfl, by decide⟩),
   (c3_fatal_preconditions (fun _ => GeoReply.exn) (some ⟨["ic"], []⟩) ⟨[], []⟩).2
      (by decide)⟩

/-! ## C5 — the four flag columns -/

/-- Column membership after a column assignment. -/
theorem setColBy_cols_mem (df : Df) (c c2 : String) (f : Row → Value)
    (h : c ∈ df.cols ∨ c = c2) : c ∈ (df.setColBy c2 f).cols := by
  simp only [Df.setColBy]
  split
  · rcases h with h | h
    · exact h
    · subst h; assumption
  · rcases h with h | h
    · exact List.mem_append_left _ h
    · subst h; exact List.mem_append_right _ (by simp)

/-- Every row of `addFlagColumns` carries the empty string in all four flag
fields, whatever was there before. -/
theorem addFlagColumns_rows (df : Df) (row : Row)
    (h : row ∈ (addFlagColumns df).rows) :
    rowGet row "miskin" = some (Value.str "") ∧
    rowGet row "miskin_tegar" = some (Value.str "") ∧
    rowGet row "str_mof" = some (Value.str "") ∧
    rowGet row "belum_disemak" = some (Value.str "") := by
  simp only [addFlagColumns, Df.setColBy, List.map_map] at h
  rcases List.mem_map.mp h with ⟨r, _, hr⟩
  subst hr
  simp only [Function.comp]
  refine ⟨?_, ?_, ?_, ?_⟩
  · rw [rowGet_rowSet_ne _ _ _ _ (by decide), rowGet_rowSet_ne _ _ _ _ (by decide),
      rowGet_rowSet_ne _ _ _ _ (by decide), rowGet_rowSet_self]
  · rw [rowGet_rowSet_ne _ _ _ _ (by decide), rowGet_rowSet_ne _ _ _ _ (by decide),
      rowGet_rowSet_self]
  · rw [rowGet_rowSet_ne _ _ _ _ (by decide), rowGet_rowSet_self]
  · rw [rowGet_rowSet_self]

/-- C5, counterexample: a record that arrives with `miskin = "YES"` leaves the
pipeline with `miskin = ""` — the upstream-supplied flag value is not
preserved in the final table. -/
theorem c5_counterexample :
    ((clean_and_process_dataframe (fun _ => GeoReply.ok [(3, 101)])
        (some ⟨["ic", "postcode", "miskin"],
          [[("ic", Value.str "990101010101"), ("postcode", Value.str "43000"),
            ("miskin", Value.str "YES")]]⟩)
        ⟨["postcode", "city", "state"],
          [[("postcode", Value.str "43000"), ("city", Value.str "Kajang"),
            ("state", Value.str "Selangor")]]⟩).2).map
      (fun d => d.rows.map (fun row => rowGet row "miskin"))
      = some [some (Value.str "")] := by
  decide

/-- C5, amended: the four flag columns are always present in the final table,
and every record's flag value is the empty string unconditionally — the
assignment overwrites any value supplied upstream. -/
theorem c5_flag_columns (geo : String → GeoReply) (odf : Option Df) (pdf : Df)
    (final : Df) (h : (clean_and_process_dataframe geo odf pdf).2 = some final) :
    ("miskin" ∈ final.cols ∧ "miskin_tegar" ∈ final.cols ∧
     "str_mof" ∈ final.cols ∧ "belum_disemak" ∈ final.cols) ∧
    ∀ row ∈ final.rows,
      rowGet row "miskin" = some (Value.str "") ∧
      rowGet row "miskin_tegar" = some (Value.str "") ∧
      rowGet row "str_mof" = some (Value.str "") ∧
      rowGet row "belum_disemak" = some (Value.str "") := by
  have hform : ∃ d : Df, final = addFlagColumns d := by
    match odf with
    | none => simp [clean_and_process_dataframe] at h
    | some df0 =>
      simp only [clean_and_process_dataframe] at h
      split at h
      · simp at h
      · simp only [pipelineRest] at h
        split at h
        · simp at h
        · split at h
          · simp at h
          · split at h
            · simp at h
            · split at h
              · simp at h
              · simp only [Option.some.injEq] at h
                exact ⟨_, h.symm⟩
  rcases hform with ⟨d, hd⟩
  subst hd
  constructor
  · simp only [addFlagColumns]
    refine ⟨?_, ?_, ?_, ?_⟩
    · exact setColBy_cols_mem _ _ _ _ (Or.inl (setColBy_cols_mem _ _ _ _
        (Or.inl (setColBy_cols_mem _ _ _ _ (Or.inl (setColBy_cols_mem _ _ _ _
          (Or.inr rfl)))))))
    · exact setColBy_cols_mem _ _ _ _ (Or.inl (setColBy_cols_mem _ _ _ _
        (Or.inl (setColBy_cols_mem _ _ _ _ (Or.inr rfl)))))
    · exact setColBy_cols_mem _ _ _ _ (Or.inl (setColBy_cols_mem _ _ _ _
        (Or.inr rfl)))
    · exact setColBy_cols_mem _ _ _ _ (Or.inr rfl)
  · intro row hrow
    exact addFlagColumns_rows d row hrow

/-- C5, witness: the flag columns of a concrete completed run. -/
theorem c5_flag_columns_witness :
    "miskin" ∈ (((clean_and_process_dataframe (fun _ => GeoReply.ok [(3, 101)])
        (some ⟨["ic", "postcode", "miskin"],
          [[("ic", Value.str "990101010101"), ("postcode", Value.str "43000"),
            ("miskin", Value.str "YES")]]⟩)
        ⟨["postcode", "city", "state"],
          [[("postcode", Value.str "43000"), ("city", Value.str "Kajang"),
            ("state", Value.str "Selangor")]]⟩).2).getD ⟨[], []⟩).cols :=
  ((c5_flag_columns (fun _ => GeoReply.ok [(3, 101)])
      (some ⟨["ic", "postcode", "miskin"],
        [[("ic", Value.str "990101010101"), ("postcode", Value.str "43000"),
          ("miskin", Value.str "YES")]]⟩)
      ⟨["postcode", "city", "state"],
        [[("postcode", Value.str "43000"), ("city", Value.str "Kajang"),
          ("state", Value.str "Selangor")]]⟩
      (((clean_and_process_dataframe (fun _ => GeoReply.ok [(3, 101)])
        (some ⟨["ic", "postcode", "miskin"],
          [[("ic", Value.str "990101010101"), ("postcode", Value.str "43000"),
            ("miskin", Value.str "YES")]]⟩)
        ⟨["postcode", "city", "state"],
          [[("postcode", Value.str "43000"), ("city", Value.str "Kajang"),
            ("state", Value.str "Selangor")]]⟩).2).getD ⟨[], []⟩)
      (by decide)).1).1

/-! ## C7 — the reference join -/

theorem flatMap_of_map {α β γ : Type} (l : List α) (f : α → β) (F : β → List γ) :
    (l.map f).flatMap F = l.flatMap (fun x => F (f x)) := by
  induction l <;> simp_all

theorem map_of_flatMap {α β γ : Type} (l : List α) (F : α → List β) (g : β → γ) :
    (l.flatMap F).map g = l.flatMap (fun x => (F x).map g) := by
  induction l <;> simp_all

theorem flatMap_eq_map_of_singleton {α β : Type} (l : List α) (F : α → List β)
    (g : α → β) (h : ∀ x ∈ l, F x = [g x]) : l.flatMap F = l.map g := by
  induction l with
  | nil => simp
  | cons a t ih =>
    simp only [List.flatMap_cons, List.map_cons, h a (by simp)]
    rw [ih (fun x hx => h x (by simp [hx]))]
    rfl

theorem filter_of_map {α β : Type} (l : List α) (f : α → β) (p : β → Bool) :
    (l.map f).filter p = (l.filter (fun x => p (f x))).map f := by
  induction l with
  | nil => simp
  | cons a t ih =>
    by_cases hp : p (f a)
    · simp [hp, ih]
    · simp [hp, ih]

/-- Filtering a list by a key equality under key distinctness gives the
first find, if any. -/
theorem filter_eq_of_nodup_keys {α : Type} (k : α → String) (K : String)
    (lst : List α) (h : (lst.map k).Nodup) :
    lst.filter (fun x => decide (k x = K)) =
      (match lst.find? (fun x => decide (k x = K)) with
       | some x => [x]
       | none => []) := by
  induction lst with
  | nil => simp
  | cons a t ih =>
    rw [List.map_cons] at h
    have hnotmem := (List.nodup_cons.mp h).1
    have hrest := (List.nodup_cons.mp h).2
    by_cases hk : k a = K
    · rw [List.filter_cons_of_pos (by simp [hk]),
        List.find?_cons_of_pos _ (by simp [hk])]
      have hnil : t.filter (fun x => decide (k x = K)) = [] := by
        rw [List.filter_eq_nil_iff]
        intro b hb
        simp only [decide_eq_true_eq]
        intro hkb
        exact hnotmem (by rw [hk, ← hkb]; exact List.mem_map_of_mem k hb)
      rw [hnil]
    · rw [List.filter_cons_of_neg (by simp [hk]),
        List.find?_cons_of_neg _ (by simp [hk])]
      exact ih hrest

/-- The entries of a record after a field assignment: either the assigned
key or an original entry. -/
theorem mem_rowSet (row : Row) (k : String) (v : Value) (kv : String × Value)
    (h : kv ∈ rowSet row k v) : kv.1 = k ∨ kv ∈ row := by
  simp only [rowSet] at h
  split at h
  · rcases List.mem_map.mp h with ⟨kv0, hkv0, hf⟩
    by_cases hk : kv0.1 = k
    · simp only [hk, if_true] at hf
      subst hf
      exact Or.inl rfl
    · simp only [hk, if_false] at hf
      subst hf
      exact Or.inr hkv0
  · rcases List.mem_append.mp h with h | h
    · exact Or.inr h
    · left
      have : kv = (k, v) := by simpa using h
      rw [this]

/-- The per-row effect of lines 222-227 on a merged row: rename `city` to
`district`, rename `state_x` back to `state`, drop `state_y`. -/
def collisionFix (row : Row) : Row :=
  ((row.map (fun kv => if kv.1 = "city" then ("district", kv.2) else kv)).map
    (fun kv => if kv.1 = "state_x" then ("state", kv.2) else kv)).filter
    (fun kv => decide (kv.1 ∉ ["state_y"]))

theorem collisionFix_append (a b : Row) :
    collisionFix (a ++ b) = collisionFix a ++ collisionFix b := by
  simp [collisionFix]

theorem collisionFix_pair (v1 v2 : Value) :
    collisionFix [("city", v1), ("state_y", v2)] = [("district", v1)] := by
  simp [collisionFix]

theorem rowGet_trim (row : Row) :
    rowGet (trimRow row) "postcode" = some (Value.str (postKey row)) :=
  rowGet_rowSet_self row "postcode" (trimVal row)

theorem mergeLeft_cols (left right : Df) :
    (mergeLeft left right).cols = left.cols.map (suffixLeft left right) ++
      (right.cols.filter (fun c => decide (c ≠ "postcode"))).map
        (suffixRight left right) := rfl

theorem mergeLeft_rows (left right : Df) :
    (mergeLeft left right).rows = left.rows.flatMap (fun l =>
      let ms := right.rows.filter (fun r =>
        decide (rowGet r "postcode" = rowGet l "postcode"))
      let lrow := l.map (fun kv => (suffixLeft left right kv.1, kv.2))
      if ms.isEmpty then
        [lrow ++ (right.cols.filter (fun c => decide (c ≠ "postcode"))).map
          (fun c => (suffixRight left right c, Value.nan))]
      else
        ms.map (fun r =>
          lrow ++ (right.cols.filter (fun c => decide (c ≠ "postcode"))).map
            (fun c => (suffixRight left right c, (rowGet r c).getD Value.nan)))) := rfl

/-- On a row whose keys avoid `city`, `state_x` and `state_y`, the `_x`
suffixing followed by the collision fix is the identity. -/
theorem collisionFix_roundtrip (L R : Df) (row : Row)
    (hs : ∀ k : String, suffixLeft L R k = if k = "state" then "state_x" else k)
    (hkeys : ∀ kv ∈ row, kv.1 ≠ "city" ∧ kv.1 ≠ "state_x" ∧ kv.1 ≠ "state_y") :
    collisionFix (row.map (fun kv => (suffixLeft L R kv.1, kv.2))) = row := by
  simp only [collisionFix, List.map_map]
  have hpt : ∀ kv ∈ row,
      ((fun kv : String × Value => if kv.1 = "state_x" then ("state", kv.2) else kv) ∘
        (fun kv : String × Value => if kv.1 = "city" then ("district", kv.2) else kv) ∘
        (fun kv : String × Value => (suffixLeft L R kv.1, kv.2))) kv = kv := by
    intro kv hkv
    obtain ⟨hc, hsx, hsy⟩ := hkeys kv hkv
    rcases kv with ⟨k, v⟩
    simp only [Function.comp]
    rw [hs]
    by_cases hkst : k = "state"
    · subst hkst
      simp
    · simp [hkst, hc, hsx]
  rw [List.map_congr_left hpt, List.map_id']
  rw [List.filter_eq_self.mpr (fun kv hkv => by
    simp only [decide_eq_true_eq, List.mem_singleton]
    exact (hkeys kv hkv).2.2)]

theorem Df.eq_of_parts (a b : Df) (hc : a.cols = b.cols) (hr : a.rows = b.rows) :
    a = b := by
  cases a; cases b; simp_all

/-- C7: lines 217-227 implement exactly the join described by the spec: both
sides' postcodes are trimmed and compared as strings (leading zeros
preserved), the join is a left join in which every input record survives,
on match the reference `city` is attached under the name `district`, the
original left-hand `state` is kept and the reference `state` discarded,
and an unmatched record keeps a null `district` with all other fields
unchanged — an unmatched postcode is not an error. Stated as a refinement:
under the reference-table schema (`postcode`, `city`, `state`; postcodes
pairwise distinct after trimming) and non-clashing input columns, the
merge equals `joinSpec`, the join written from the spec's words. -/
theorem c7_reference_join (df pdf : Df)
    (h1 : pdf.cols = ["postcode", "city", "state"])
    (h2 : "postcode" ∈ df.cols)
    (h3 : "state" ∈ df.cols)
    (h4 : "city" ∉ df.cols)
    (h5 : "state_x" ∉ df.cols)
    (h6 : "state_y" ∉ df.cols)
    (h7 : ∀ row ∈ df.rows, ∀ kv ∈ row,
      kv.1 ≠ "city" ∧ kv.1 ≠ "state_x" ∧ kv.1 ≠ "state_y")
    (h8 : (pdf.rows.map postKey).Nodup) :
    mergeStep df pdf = some (joinSpec df pdf) := by
  have hpcpdf : "postcode" ∈ pdf.cols := by simp [h1]
  have hLcols : (trimPostcodeCol df).cols = df.cols := by
    simp only [trimPostcodeCol, Df.setColBy]
    rw [if_pos h2]
  have hRcols : (trimPostcodeCol pdf).cols = pdf.cols := by
    simp only [trimPostcodeCol, Df.setColBy]
    rw [if_pos hpcpdf]
  have hsfxL : ∀ k : String,
      suffixLeft (trimPostcodeCol df) (trimPostcodeCol pdf) k
        = if k = "state" then "state_x" else k := by
    intro k
    simp only [suffixLeft, hLcols, hRcols, h1]
    by_cases hk : k = "state"
    · subst hk
      rw [if_pos ⟨by decide, h3, by decide⟩, if_pos rfl]
      decide
    · have hcond : ¬(k ≠ "postcode" ∧ k ∈ df.cols ∧ k ∈ ["postcode", "city", "state"]) := by
        rintro ⟨hkp, hkdf, hkr⟩
        have hk3 : k = "postcode" ∨ k = "city" ∨ k = "state" := by simpa using hkr
        rcases hk3 with h | h | h
        · exact hkp h
        · rw [h] at hkdf
          exact h4 hkdf
        · exact hk h
      rw [if_neg hcond, if_neg hk]
  have hsfxR1 : suffixRight (trimPostcodeCol df) (trimPostcodeCol pdf) "city" = "city" := by
    simp only [suffixRight, hLcols, hRcols, h1]
    rw [if_neg]
    rintro ⟨-, hcdf, -⟩
    exact h4 hcdf
  have hsfxR2 : suffixRight (trimPostcodeCol df) (trimPostcodeCol pdf) "state" = "state_y" := by
    simp only [suffixRight, hLcols, hRcols, h1]
    rw [if_pos ⟨by decide, h3, by decide⟩]
    decide
  have hrcols : (trimPostcodeCol pdf).cols.filter (fun c => decide (c ≠ "postcode"))
      = ["city", "state"] := by
    rw [hRcols, h1]
    rfl
  have hMcols : (mergeLeft (trimPostcodeCol df) (trimPostcodeCol pdf)).cols
      = df.cols.map (fun c => if c = "state" then "state_x" else c) ++ ["city", "state_y"] := by
    rw [mergeLeft_cols, hrcols, hLcols]
    congr 1
    · exact List.map_congr_left (fun c _ => hsfxL c)
    · simp only [List.map_cons, List.map_nil, hsfxR1, hsfxR2]
  have hM2cols : (renameCol (mergeLeft (trimPostcodeCol df) (trimPostcodeCol pdf))
        "city" "district").cols
      = df.cols.map (fun c => if c = "state" then "state_x" else c) ++ ["district", "state_y"] := by
    show ((mergeLeft (trimPostcodeCol df) (trimPostcodeCol pdf)).cols.map
      (fun c => if c = "city" then "district" else c)) = _
    rw [hMcols, List.map_append, List.map_map]
    congr 1
    · apply List.map_congr_left
      intro c hc
      by_cases hcs : c = "state"
      · subst hcs
        simp
      · have hcc : c ≠ "city" := fun hh => h4 (hh ▸ hc)
        simp [hcs, hcc]
  have hM3cols : (renameCol (renameCol (mergeLeft (trimPostcodeCol df) (trimPostcodeCol pdf))
        "city" "district") "state_x" "state").cols
      = df.cols ++ ["district", "state_y"] := by
    show ((renameCol (mergeLeft (trimPostcodeCol df) (trimPostcodeCol pdf))
      "city" "district").cols.map (fun c => if c = "state_x" then "state" else c)) = _
    rw [hM2cols, List.map_append, List.map_map]
    congr 1
    · have hpt : ∀ c ∈ df.cols,
          ((fun c => if c = "state_x" then "state" else c) ∘
            (fun c => if c = "state" then "state_x" else c)) c = c := by
        intro c hc
        by_cases hcs : c = "state"
        · subst hcs
          simp
        · have hsx : c ≠ "state_x" := fun hh => h5 (hh ▸ hc)
          simp [hcs, hsx]
      rw [List.map_congr_left hpt, List.map_id']
  have hM4cols : (drop_columns (renameCol (renameCol
        (mergeLeft (trimPostcodeCol df) (trimPostcodeCol pdf))
        "city" "district") "state_x" "state") ["state_y"]).cols
      = df.cols ++ ["district"] := by
    show ((renameCol (renameCol (mergeLeft (trimPostcodeCol df) (trimPostcodeCol pdf))
      "city" "district") "state_x" "state").cols.filter
        (fun c => decide (c ∉ ["state_y"]))) = _
    rw [hM3cols, List.filter_append]
    congr 1
    · rw [List.filter_eq_self]
      intro a ha
      simp only [decide_eq_true_eq, List.mem_singleton]
      exact fun hh => h6 (hh ▸ ha)
  have hcity_in : "city" ∈ (mergeLeft (trimPostcodeCol df) (trimPostcodeCol pdf)).cols := by
    rw [hMcols]
    simp
  have hsx_in : "state_x" ∈ (renameCol (mergeLeft (trimPostcodeCol df)
      (trimPostcodeCol pdf)) "city" "district").cols := by
    rw [hM2cols]
    apply List.mem_append_left
    exact List.mem_map.mpr ⟨"state", h3, by simp⟩
  have hsy_in : "state_y" ∈ (renameCol (renameCol (mergeLeft (trimPostcodeCol df)
      (trimPostcodeCol pdf)) "city" "district") "state_x" "state").cols := by
    rw [hM3cols]
    simp
  have hrows : (drop_columns (renameCol (renameCol
        (mergeLeft (trimPostcodeCol df) (trimPostcodeCol pdf))
        "city" "district") "state_x" "state") ["state_y"]).rows
      = (joinSpec df pdf).rows := by
    show (((mergeLeft (trimPostcodeCol df) (trimPostcodeCol pdf)).rows.map
        (fun row => row.map (fun kv => if kv.1 = "city" then ("district", kv.2) else kv))).map
        (fun row => row.map (fun kv => if kv.1 = "state_x" then ("state", kv.2) else kv))).map
        (fun row => row.filter (fun kv => decide (kv.1 ∉ ["state_y"])))
      = df.rows.map (fun l =>
          trimRow l ++
            [("district",
              match pdf.rows.find? (fun r => decide (postKey r = postKey l)) with
              | some r => (rowGet r "city").getD Value.nan
              | none => Value.nan)])
    rw [List.map_map, List.map_map, mergeLeft_rows]
    rw [show (trimPostcodeCol df).rows = df.rows.map trimRow from rfl]
    rw [flatMap_of_map, map_of_flatMap]
    apply flatMap_eq_map_of_singleton
    intro l0 hl0
    simp only []
    have hkeys : ∀ kv ∈ trimRow l0, kv.1 ≠ "city" ∧ kv.1 ≠ "state_x" ∧ kv.1 ≠ "state_y" := by
      intro kv hkv
      rcases mem_rowSet l0 "postcode" (trimVal l0) kv hkv with hk | hk
      · rw [hk]
        exact ⟨by decide, by decide, by decide⟩
      · exact h7 l0 hl0 kv hk
    have hms : (trimPostcodeCol pdf).rows.filter
        (fun r => decide (rowGet r "postcode" = rowGet (trimRow l0) "postcode"))
        = match pdf.rows.find? (fun r => decide (postKey r = postKey l0)) with
          | some r0 => [trimRow r0]
          | none => [] := by
      rw [show (trimPostcodeCol pdf).rows = pdf.rows.map trimRow from rfl, filter_of_map]
      have hpred : ∀ r ∈ pdf.rows,
          (decide (rowGet (trimRow r) "postcode" = rowGet (trimRow l0) "postcode"))
            = decide (postKey r = postKey l0) := by
        intro r _
        rw [rowGet_trim, rowGet_trim]
        exact decide_eq_decide.mpr (by simp)
      rw [List.filter_congr hpred,
        filter_eq_of_nodup_keys postKey (postKey l0) pdf.rows h8]
      cases pdf.rows.find? (fun r => decide (postKey r = postKey l0)) <;> simp
    cases hfind : pdf.rows.find? (fun r => decide (postKey r = postKey l0)) with
    | none =>
      have hms2 : (trimPostcodeCol pdf).rows.filter
          (fun r => decide (rowGet r "postcode" = rowGet (trimRow l0) "postcode")) = [] := by
        rw [hms, hfind]
      rw [hms2, hrcols]
      rw [if_pos (show List.isEmpty ([] : List Row) = true from rfl)]
      simp only [List.map_cons, List.map_nil, hsfxR1, hsfxR2]
      congr 1
      show collisionFix ((trimRow l0).map
          (fun kv => (suffixLeft (trimPostcodeCol df) (trimPostcodeCol pdf) kv.1, kv.2)) ++
          [("city", Value.nan), ("state_y", Value.nan)]) = _
      rw [collisionFix_append, collisionFix_roundtrip _ _ _ hsfxL hkeys, collisionFix_pair]
    | some r0 =>
      have hms2 : (trimPostcodeCol pdf).rows.filter
          (fun r => decide (rowGet r "postcode" = rowGet (trimRow l0) "postcode"))
          = [trimRow r0] := by
        rw [hms, hfind]
      rw [hms2, hrcols]
      rw [if_neg (show ¬(List.isEmpty [trimRow r0] = true) from by simp)]
      simp only [List.map_cons, List.map_nil, hsfxR1, hsfxR2]
      congr 1
      show collisionFix ((trimRow l0).map
          (fun kv => (suffixLeft (trimPostcodeCol df) (trimPostcodeCol pdf) kv.1, kv.2)) ++
          [("city", (rowGet (trimRow r0) "city").getD Value.nan),
           ("state_y", (rowGet (trimRow r0) "state").getD Value.nan)]) = _
      rw [collisionFix_append, collisionFix_roundtrip _ _ _ hsfxL hkeys, collisionFix_pair]
      rw [show rowGet (trimRow r0) "city" = rowGet r0 "city" from
        rowGet_rowSet_ne r0 "postcode" "city" (trimVal r0) (by decide)]
  simp only [mergeStep]
  rw [if_pos ⟨h2, hpcpdf⟩, if_pos hcity_in, if_pos hsx_in, if_pos hsy_in]
  exact congrArg some (Df.eq_of_parts _ _ hM4cols hrows)

/-- C7, witness: the refinement at a concrete two-record table against a
one-row reference table, with one matched (whitespace-padded, leading-zero
postcode) and one unmatched record. -/
theorem c7_reference_join_witness :
    mergeStep
      ⟨["name", "state", "postcode"],
       [[("name", Value.str "A"), ("state", Value.str "KL"),
         ("postcode", Value.str " 04300 ")],
        [("name", Value.str "B"), ("state", Value.str "P"),
         ("postcode", Value.str "99999")]]⟩
      ⟨["postcode", "city", "state"],
       [[("postcode", Value.str "04300"), ("city", Value.str "Kajang"),
         ("state", Value.str "Selangor")]]⟩
    = some (joinSpec
      ⟨["name", "state", "postcode"],
       [[("name", Value.str "A"), ("state", Value.str "KL"),
         ("postcode", Value.str " 04300 ")],
        [("name", Value.str "B"), ("state", Value.str "P"),
         ("postcode", Value.str "99999")]]⟩
      ⟨["postcode", "city", "state"],
       [[("postcode", Value.str "04300"), ("city", Value.str "Kajang"),
         ("state", Value.str "Selangor")]]⟩) :=
  c7_reference_join
    ⟨["name", "state", "postcode"],
     [[("name", Value.str "A"), ("state", Value.str "KL"),
       ("postcode", Value.str " 04300 ")],
      [("name", Value.str "B"), ("state", Value.str "P"),
       ("postcode", Value.str "99999")]]⟩
    ⟨["postcode", "city", "state"],
     [[("postcode", Value.str "04300"), ("city", Value.str "Kajang"),
       ("state", Value.str "Selangor")]]⟩
    (by decide) (by decide) (by decide) (by decide) (by decide) (by decide)
    (by decide) (by decide)

end WeeklyDataProcessor
